import Mathlib

/-!
Verification of the dual-provider embedding ingestion and search-routing layer
of the citus-vector repository.

The embedding models, from the TypeScript source:
  * the OpenAI embedding generator with retry/backoff
    (server/embeddings/openai-embeddings.ts: generateOpenAIEmbedding),
  * the server-side embedding service wrapper
    (server/embeddings/index.ts: generateEmbedding),
  * the chunks table (db/schema.ts) as a list of rows with a composite
    (id, channelId) key, two nullable vector columns and a provider tag,
  * the four route handlers of server/routes.ts:
    POST /search, POST /chunks, POST /chunks/upsert,
    and the bulk endpoint POST /chunks/bulk-upsert (modelled from the spec,
    its handler source being absent from the repository snapshot).

JavaScript numbers are modelled as rationals; vectors as lists of rationals.
Absent (undefined) JSON fields are modelled as none; JS truthiness on the
typed fields the handlers test is modelled explicitly (0 and the empty
string are falsy).  The external store's cosine-distance operator is an
out-of-scope collaborator and enters as an explicit distance-function
parameter of the search router.
-/

namespace CitusVector

/-- Embedding vectors: JS number arrays, numbers as rationals. -/
abbrev Vec := List ℚ

/-- The empty string (used to model JS falsiness of strings). -/
def strEmpty : String := ""

/-- JS truthiness of an optional numeric field: undefined and 0 are falsy. -/
def numTruthy : Option Int → Bool
  | none => false
  | some n => n != 0

/-- JS truthiness of an optional string field: undefined and the empty string are falsy. -/
def strTruthy : Option String → Bool
  | none => false
  | some s => s != strEmpty

/-- Does the first character list occur at the head of the second? -/
def charsStart : List Char → List Char → Bool
  | [], _ => true
  | _ :: _, [] => false
  | a :: n, b :: h => a == b && charsStart n h

/-- Does the first character list occur anywhere inside the second? -/
def charsHave (needle : List Char) : List Char → Bool
  | [] => needle.isEmpty
  | b :: h => charsStart needle (b :: h) || charsHave needle h

/-- Model of JavaScript String.prototype.includes. -/
def strIncl (hay needle : String) : Bool := charsHave needle.toList hay.toList

/-- JS whitespace as tested by String.prototype.trim (the characters relevant
to this code base). -/
def isWsChar (c : Char) : Bool := c == ' ' || c == '\t' || c == '\n' || c == '\r'

/-- Model of the emptiness test text.trim().length === 0: every character is
whitespace (true in particular for the empty string). -/
def trimEmpty (s : String) : Bool := s.toList.all isWsChar

/-! ### OpenAI embedding generation (openai-embeddings.ts) -/

/-- Outcome of one call to the remote OpenAI embeddings API: either a returned
vector or a thrown error carrying a message. -/
inductive ApiOutcome
  | ok (v : Vec)
  | fail (msg : String)
deriving DecidableEq

/-- Error-message fragments and messages used by the embedding service. -/
def msgRate : String := "rate limit"

def msgTimeoutWord : String := "timeout"

def msg503 : String := "503"

def msg429 : String := "429"

def msgTextEmpty : String := "Text cannot be empty"

def msgNoKeyVar : String := "OPENAI_API_KEY environment variable is not set"

def msgNoKeyCfg : String := "OPENAI_API_KEY is not configured"

def msgGenFailed : String := "Failed to generate OpenAI embedding"

def msgDimsExpected : String := "Expected 1536 dimensions, got "

/-- The dimension-mismatch message thrown when the returned vector has the wrong length. -/
def dimMsg (n : Nat) : String := msgDimsExpected ++ toString n

/-- Result of the try block of one loop iteration: the API outcome, followed by
the dimension check that throws inside the same try block. -/
def attemptRes : ApiOutcome → Except String Vec
  | .ok v => if v.length = 1536 then .ok v else .error (dimMsg v.length)
  | .fail m => .error m

/-- The catch block's retryability test: the error message is searched for the
substrings rate limit, timeout, 503 and 429. -/
def isRetryableMsg (m : String) : Bool :=
  strIncl m msgRate || strIncl m msgTimeoutWord || strIncl m msg503 || strIncl m msg429

/-- Observable outcome of generateOpenAIEmbedding: the returned vector or the
thrown error, the number of API calls made, and the backoff delays slept (ms). -/
structure GenOutcome where
  result : Except String Vec
  calls : Nat
  delays : List Nat

/-- The retry loop of generateOpenAIEmbedding: attempts 0..retries; a retryable
failure before the last attempt sleeps 2^attempt * 1000 ms and retries; any
other failure (or exhaustion) rethrows the last error. -/
def genLoop (tr : Nat → ApiOutcome) (retries : Nat) : Nat → Nat → List Nat → Option String → GenOutcome
  | 0, i, ds, last => ⟨.error (last.getD msgGenFailed), i, ds⟩
  | fuel + 1, i, ds, _last =>
    match attemptRes (tr i) with
    | .ok v => ⟨.ok v, i + 1, ds⟩
    | .error m =>
      if isRetryableMsg m = true ∧ i < retries then
        genLoop tr retries fuel (i + 1) (ds ++ [2 ^ i * 1000]) (some m)
      else ⟨.error m, i + 1, ds⟩

/-- generateOpenAIEmbedding (openai-embeddings.ts): empty-text and missing-key
checks, then the bounded retry loop. keySet models whether OPENAI_API_KEY is
set; tr gives the outcome of the i-th API call. -/
def generateOpenAIEmbedding (keySet : Bool) (text : String) (tr : Nat → ApiOutcome)
    (retries : Nat := 2) : GenOutcome :=
  if trimEmpty text then ⟨.error msgTextEmpty, 0, []⟩
  else if keySet = false then ⟨.error msgNoKeyVar, 0, []⟩
  else genLoop tr retries (retries + 1) 0 [] none

/-- The server environment seen by the embedding service: whether the OpenAI
credential is configured, and the behaviour of the remote API per call. -/
structure OpenAIEnv where
  apiKeySet : Bool
  attempts : Nat → ApiOutcome

/-- generateEmbedding (embeddings/index.ts): empty-text check, configuration
check, then generateOpenAIEmbedding with the default retry bound 2; a thrown
error propagates unchanged. -/
def generateEmbedding (env : OpenAIEnv) (text : String) : Except String Vec :=
  if trimEmpty text then .error msgTextEmpty
  else if env.apiKeySet = false then .error msgNoKeyCfg
  else (generateOpenAIEmbedding env.apiKeySet text env.attempts 2).result

/-! ### Data model (db/schema.ts) -/

/-- A row of the chunks table: composite primary key (id, channelId), two
nullable vector columns, a provider tag and a creation timestamp. -/
structure Row where
  id : Int
  channelId : Int
  userId : Int
  writerChannelId : Option Int
  content : String
  embeddingOpenai : Option Vec
  embeddingLocal : Option Vec
  embeddingProvider : Option String
  metadata : Option String
  createdAt : Nat
deriving DecidableEq

/-- The chunks table together with the bigserial id sequence and the clock
value used for created_at defaults. -/
structure DB where
  rows : List Row
  nextId : Int
  now : Nat
deriving DecidableEq

/-- Provider selector strings. -/
def pOpenai : String := "openai"

def pLocal : String := "local"

def pBoth : String := "both"

/-! ### Route handler messages (routes.ts) -/

def msgSearchProvider : String := "provider must be \"openai\" or \"local\""

def msgSearchText : String := "text is required for OpenAI provider"

def msgSearchEmbedding : String := "embedding array is required for local provider"

def msgSearchLocalDim : String := "Local embedding must be 384 dimensions"

def msgInsertRequired : String := "Missing required fields: channelId, userId, content"

def msgInsertDimA : String := "embeddingOpenai must be an array of 1536 numbers"

def msgInsertDimB : String := "embeddingLocal must be an array of 384 numbers"

def msgInsertNoEmbedding : String :=
  "At least one embedding (embeddingOpenai or embeddingLocal) must be provided"

def msgUpsertRequired : String := "text, channelId, and userId are required"

def msgUpsertProvider : String := "provider must be \"openai\", \"local\", or \"both\""

def msgUpsertLocalDim : String := "Valid 384-dim embeddingLocal required for local/both provider"

def actUpserted : String := "upserted"

def actCreated : String := "created"

/-! ### POST /chunks (direct insert) -/

/-- Request body of POST /chunks; absent fields are none. -/
structure InsertReq where
  channelId : Option Int
  userId : Option Int
  writerChannelId : Option Int
  content : Option String
  embeddingOpenai : Option Vec
  embeddingLocal : Option Vec
  embeddingProvider : Option String
  metadata : Option String
deriving DecidableEq

/-- Response of POST /chunks: a status with the persisted chunk, or an error. -/
inductive ChunkResp
  | ok (status : Nat) (chunk : Row)
  | err (status : Nat) (msg : String)
deriving DecidableEq

/-- The row inserted by the POST /chunks handler: id drawn from the sequence,
created_at from the clock, embedding_provider defaulting to openai. -/
def insRow (req : InsertReq) (db : DB) : Row :=
  { id := db.nextId
    channelId := req.channelId.getD 0
    userId := req.userId.getD 0
    writerChannelId := req.writerChannelId
    content := req.content.getD strEmpty
    embeddingOpenai := req.embeddingOpenai
    embeddingLocal := req.embeddingLocal
    embeddingProvider := some (req.embeddingProvider.getD pOpenai)
    metadata := req.metadata
    createdAt := db.now }

/-- The POST /chunks handler: required-field truthiness checks, per-column
dimension checks, the at-least-one-embedding check, then a plain insert that
draws id from the sequence and created_at from the clock. -/
def insertChunk (req : InsertReq) (db : DB) : ChunkResp × DB :=
  if !numTruthy req.channelId || !numTruthy req.userId || !strTruthy req.content then
    (.err 400 msgInsertRequired, db)
  else if ∃ l, req.embeddingOpenai = some l ∧ l.length ≠ 1536 then
    (.err 400 msgInsertDimA, db)
  else if ∃ l, req.embeddingLocal = some l ∧ l.length ≠ 384 then
    (.err 400 msgInsertDimB, db)
  else if req.embeddingOpenai = none ∧ req.embeddingLocal = none then
    (.err 400 msgInsertNoEmbedding, db)
  else
    (.ok 201 (insRow req db),
     { db with rows := db.rows ++ [insRow req db], nextId := db.nextId + 1 })

/-! ### POST /chunks/upsert (single-item upsert) -/

/-- Request body of POST /chunks/upsert; absent fields are none. -/
structure UpsertReq where
  id : Option Int
  text : Option String
  channelId : Option Int
  userId : Option Int
  writerChannelId : Option Int
  provider : Option String
  embeddingLocal : Option Vec
  metadata : Option String
deriving DecidableEq

/-- Response of POST /chunks/upsert: status, persisted chunk and action tag,
or an error. -/
inductive UpsertResp
  | ok (status : Nat) (chunk : Row) (action : String)
  | err (status : Nat) (msg : String)
deriving DecidableEq

/-- The chunkData object built by the upsert handler (everything that is
written; id and createdAt are not part of it). A none field models a JS
undefined, which drizzle omits from an update set. -/
structure ChunkData where
  channelId : Int
  userId : Int
  writerChannelId : Option Int
  content : String
  embeddingOpenai : Option Vec
  embeddingLocal : Option Vec
  embeddingProvider : String
  metadata : Option String
deriving DecidableEq

/-- chunkData as assembled in the upsert handler from the request and the
resolved embeddings. -/
def mkUpsertData (req : UpsertReq) (eo el : Option Vec) : ChunkData :=
  { channelId := req.channelId.getD 0
    userId := req.userId.getD 0
    writerChannelId := req.writerChannelId
    content := req.text.getD strEmpty
    embeddingOpenai := eo
    embeddingLocal := el
    embeddingProvider := req.provider.getD pOpenai
    metadata := req.metadata }

/-- Drizzle's onConflictDoUpdate set clause applied to an existing row:
defined fields overwrite, undefined (none) fields are omitted; id and
createdAt are never in the set and stay. -/
def applySet (r : Row) (d : ChunkData) : Row :=
  { id := r.id
    channelId := d.channelId
    userId := d.userId
    writerChannelId := match d.writerChannelId with | some v => some v | none => r.writerChannelId
    content := d.content
    embeddingOpenai := match d.embeddingOpenai with | some v => some v | none => r.embeddingOpenai
    embeddingLocal := match d.embeddingLocal with | some v => some v | none => r.embeddingLocal
    embeddingProvider := some d.embeddingProvider
    metadata := match d.metadata with | some v => some v | none => r.metadata
    createdAt := r.createdAt }

/-- A freshly inserted row built from chunkData with a given id and the
current clock as created_at. -/
def rowOfData (i : Int) (now : Nat) (d : ChunkData) : Row :=
  { id := i
    channelId := d.channelId
    userId := d.userId
    writerChannelId := d.writerChannelId
    content := d.content
    embeddingOpenai := d.embeddingOpenai
    embeddingLocal := d.embeddingLocal
    embeddingProvider := some d.embeddingProvider
    metadata := d.metadata
    createdAt := now }

/-- Key match against the composite primary key (id, channelId). -/
def keyMatch (i ch : Int) (r : Row) : Bool := r.id == i && r.channelId == ch

/-- Update every row whose key conflicts, leaving the rest untouched. -/
def updateRows (i : Int) (d : ChunkData) (rows : List Row) : List Row :=
  rows.map fun x => if keyMatch i d.channelId x then applySet x d else x

/-- The write phase of the upsert handler: with a truthy id, an insert with
onConflictDoUpdate on (id, channelId) returning action upserted and the
default 200 status; without one, a plain insert returning created and 201. -/
def finishUpsert (req : UpsertReq) (d : ChunkData) (db : DB) : UpsertResp × DB :=
  if numTruthy req.id then
    match db.rows.find? (keyMatch (req.id.getD 0) d.channelId) with
    | some r =>
        (.ok 200 (applySet r d) actUpserted,
         { db with rows := updateRows (req.id.getD 0) d db.rows })
    | none =>
        (.ok 200 (rowOfData (req.id.getD 0) db.now d) actUpserted,
         { db with rows := db.rows ++ [rowOfData (req.id.getD 0) db.now d] })
  else
    (.ok 201 (rowOfData db.nextId db.now d) actCreated,
     { db with rows := db.rows ++ [rowOfData db.nextId db.now d], nextId := db.nextId + 1 })

/-- Embedding-resolution phase two of the upsert handler: for local or both,
the client-supplied 384-dim vector is required. -/
def upsertStage3 (req : UpsertReq) (eo : Option Vec) (db : DB) : UpsertResp × DB :=
  if req.provider.getD pOpenai = pLocal ∨ req.provider.getD pOpenai = pBoth then
    match req.embeddingLocal with
    | some l =>
        if l.length = 384 then finishUpsert req (mkUpsertData req eo (some l)) db
        else (.err 400 msgUpsertLocalDim, db)
    | none => (.err 400 msgUpsertLocalDim, db)
  else finishUpsert req (mkUpsertData req eo none) db

/-- Embedding-resolution phase one of the upsert handler: for openai or both,
the server generates the OpenAI embedding; a thrown generation error is
surfaced as a 500 by the route's catch block. -/
def upsertStage2 (env : OpenAIEnv) (req : UpsertReq) (db : DB) : UpsertResp × DB :=
  if req.provider.getD pOpenai = pOpenai ∨ req.provider.getD pOpenai = pBoth then
    match generateEmbedding env (req.text.getD strEmpty) with
    | .error m => (.err 500 m, db)
    | .ok v => upsertStage3 req (some v) db
  else upsertStage3 req none db

/-- The POST /chunks/upsert handler (routes.ts): required-field truthiness
checks, provider validation with default openai, embedding resolution, then
the keyed write. -/
def upsertChunk (env : OpenAIEnv) (req : UpsertReq) (db : DB) : UpsertResp × DB :=
  if !strTruthy req.text || !numTruthy req.channelId || !numTruthy req.userId then
    (.err 400 msgUpsertRequired, db)
  else
    if req.provider.getD pOpenai = pOpenai ∨ req.provider.getD pOpenai = pLocal
        ∨ req.provider.getD pOpenai = pBoth then
      upsertStage2 env req db
    else (.err 400 msgUpsertProvider, db)

/-! ### POST /search -/

/-- Request body of POST /search; absent fields are none. -/
structure SearchReq where
  text : Option String
  embedding : Option Vec
  provider : Option String
  limit : Option Nat
deriving DecidableEq

/-- Response of POST /search. -/
inductive SearchResp
  | ok (results : List Row) (provider : String)
  | err (status : Nat) (msg : String)
deriving DecidableEq

/-- The embedding column selected by the provider. -/
def selCol (p : String) (r : Row) : Option Vec :=
  if p = pOpenai then r.embeddingOpenai else r.embeddingLocal

/-- The selected column's vector of a participating row. -/
def colVal (p : String) (r : Row) : Vec := (selCol p r).getD []

/-- Query-vector resolution of the search handler: openai generates from the
required text (a thrown error becomes a 500), local requires a client-supplied
384-dim vector. -/
def resolveQuery (env : OpenAIEnv) (req : SearchReq) (p : String) : Except (Nat × String) Vec :=
  if p = pOpenai then
    if strTruthy req.text = false then .error (400, msgSearchText)
    else
      match generateEmbedding env (req.text.getD strEmpty) with
      | .error m => .error (500, m)
      | .ok v => .ok v
  else
    match req.embedding with
    | none => .error (400, msgSearchEmbedding)
    | some l => if l.length = 384 then .ok l else .error (400, msgSearchLocalDim)

/-- The store's read: keep rows whose selected column is non-null, order by
the distance of that column to the query ascending, and apply the limit.
dist stands for the external store's cosine-distance operator. -/
def rankRows (dist : Vec → Vec → ℚ) (p : String) (q : Vec) (rows : List Row) (lim : Nat) :
    List Row :=
  ((rows.filter fun r => (selCol p r).isSome).insertionSort
    (fun a b => dist (colVal p a) q ≤ dist (colVal p b) q)).take lim

/-- The POST /search handler (routes.ts): provider validation with default
openai, query resolution, then the filtered, ordered, limited read with
default limit 5. -/
def search (dist : Vec → Vec → ℚ) (env : OpenAIEnv) (req : SearchReq) (db : DB) : SearchResp :=
  if req.provider.getD pOpenai = pOpenai ∨ req.provider.getD pOpenai = pLocal then
    match resolveQuery env req (req.provider.getD pOpenai) with
    | .error e => .err e.1 e.2
    | .ok q =>
        .ok (rankRows dist (req.provider.getD pOpenai) q db.rows (req.limit.getD 5))
          (req.provider.getD pOpenai)
  else .err 400 msgSearchProvider

/-! ### POST /chunks/bulk-upsert (bulk orchestrator) -/

/-- One element of a bulk-upsert request, shaped like the single-item upsert
input minus the shared provider. -/
structure BulkItem where
  id : Option Int
  text : Option String
  channelId : Option Int
  userId : Option Int
  writerChannelId : Option Int
  embeddingLocal : Option Vec
  metadata : Option String
deriving DecidableEq

/-- Request body of POST /chunks/bulk-upsert. -/
structure BulkReq where
  provider : Option String
  chunks : List BulkItem
deriving DecidableEq

/-- Per-item result slot of a bulk-upsert response. -/
structure BulkResult where
  success : Bool
  chunk : Option Row
  action : Option String
  error : Option String
deriving DecidableEq

/-- Response of POST /chunks/bulk-upsert. -/
inductive BulkResp
  | ok (status : Nat) (results : List BulkResult) (successCount errorCount total : Nat)
  | err (status : Nat) (msg : String)
deriving DecidableEq

/-- The single-item payload an element is processed with: the element's fields
plus the batch-wide provider. -/
def itemReq (p : String) (it : BulkItem) : UpsertReq :=
  { id := it.id
    text := it.text
    channelId := it.channelId
    userId := it.userId
    writerChannelId := it.writerChannelId
    provider := some p
    embeddingLocal := it.embeddingLocal
    metadata := it.metadata }

/-- Modelled from the spec: processing of one bulk element. The bulk-upsert
route handler is absent from the repository snapshot (only its tests in
routes.test.ts and its frontend client in api.ts exist); per spec section 4.4
each element is processed independently via the single-item upsert operation,
a failure being captured as that element's error result. -/
def processItem (env : OpenAIEnv) (p : String) (it : BulkItem) (db : DB) : BulkResult × DB :=
  match upsertChunk env (itemReq p it) db with
  | (.ok _ chunk action, db2) => (⟨true, some chunk, some action, none⟩, db2)
  | (.err _ m, db2) => (⟨false, none, none, some m⟩, db2)

/-- Modelled from the spec: elements are processed one at a time in input
order, each against the store state left by its predecessors, results in
input order. -/
def bulkGo (env : OpenAIEnv) (p : String) : List BulkItem → DB → List BulkResult × DB
  | [], db => ([], db)
  | it :: rest, db =>
    ((processItem env p it db).1 :: (bulkGo env p rest (processItem env p it db).2).1,
     (bulkGo env p rest (processItem env p it db).2).2)

/-- Modelled from the spec: the POST /chunks/bulk-upsert handler. The provider
selection is validated once, before any element is attempted (400 if invalid);
then every element is processed with per-item fault isolation and the response
always has success status with one result slot per input element plus
aggregate counts. -/
def bulkUpsert (env : OpenAIEnv) (req : BulkReq) (db : DB) : BulkResp × DB :=
  if req.provider.getD pOpenai = pOpenai ∨ req.provider.getD pOpenai = pLocal
      ∨ req.provider.getD pOpenai = pBoth then
    (.ok 200 (bulkGo env (req.provider.getD pOpenai) req.chunks db).1
      ((bulkGo env (req.provider.getD pOpenai) req.chunks db).1.countP (·.success))
      ((bulkGo env (req.provider.getD pOpenai) req.chunks db).1.countP fun r => !r.success)
      (bulkGo env (req.provider.getD pOpenai) req.chunks db).1.length,
     (bulkGo env (req.provider.getD pOpenai) req.chunks db).2)
  else (.err 400 msgUpsertProvider, db)

/-! ### Concrete scenarios used by witnesses and counterexamples -/

/-- A remote API behaviour whose first response is a 503-element vector and
whose second response is a well-formed 1536-element vector. -/
def trace503 : Nat → ApiOutcome :=
  fun n => if n = 0 then .ok (List.replicate 503 0) else .ok (List.replicate 1536 0)

/-- An error message recognised by none of the retryability substrings. -/
def msgBoom : String := "invalid api key"

/-- A remote API behaviour that always fails non-retryably. -/
def traceBoom : Nat → ApiOutcome := fun _ => .fail msgBoom

/-- A server environment with the credential configured and a well-behaved
remote API. -/
def envW : OpenAIEnv := ⟨true, fun _ => .ok (List.replicate 1536 (1/2))⟩

/-- A stored chunk populated only with the provider-B (local) embedding. -/
def rowW : Row :=
  { id := 1, channelId := 7, userId := 3, writerChannelId := none,
    content := "old", embeddingOpenai := none,
    embeddingLocal := some (List.replicate 384 (1/10)),
    embeddingProvider := some pLocal, metadata := none, createdAt := 100 }

/-- A one-row store holding rowW. -/
def dbW : DB := ⟨[rowW], 2, 200⟩

/-- An upsert of the same (id, channelId) with provider openai. -/
def reqW : UpsertReq :=
  { id := some 1, text := some "hello", channelId := some 7, userId := some 3,
    writerChannelId := none, provider := some pOpenai, embeddingLocal := none,
    metadata := none }

/-- The row rowW after the openai upsert reqW under envW. -/
def rowW2 : Row :=
  { id := 1, channelId := 7, userId := 3, writerChannelId := none,
    content := "hello", embeddingOpenai := some (List.replicate 1536 (1/2)),
    embeddingLocal := some (List.replicate 384 (1/10)),
    embeddingProvider := some pOpenai, metadata := none, createdAt := 100 }

/-- The one-row store after the openai upsert reqW over dbW. -/
def dbW2 : DB := ⟨[rowW2], 2, 200⟩

/-- A direct-insert request carrying no embedding at all. -/
def insReqNoEmb : InsertReq :=
  { channelId := some 5, userId := some 6, writerChannelId := none,
    content := some "abc", embeddingOpenai := none, embeddingLocal := none,
    embeddingProvider := none, metadata := none }

/-- A direct-insert request whose channelId is the well-formed integer 0. -/
def insReqZero : InsertReq :=
  { channelId := some 0, userId := some 6, writerChannelId := none,
    content := some "abc", embeddingOpenai := none,
    embeddingLocal := some (List.replicate 384 0),
    embeddingProvider := none, metadata := none }

/-- An upsert request whose channelId is the well-formed integer 0. -/
def upReqZero : UpsertReq :=
  { id := none, text := some "abc", channelId := some 0, userId := some 6,
    writerChannelId := none, provider := some pLocal,
    embeddingLocal := some (List.replicate 384 0), metadata := none }

/-- A chunk populated only with the provider-A (openai) embedding. -/
def srowA : Row :=
  { rowW with
    id := 10
    embeddingOpenai := some (List.replicate 1536 0)
    embeddingLocal := none
    embeddingProvider := some pOpenai }

/-- A local-provider search request with a client-supplied 384-dim vector and
no limit field. -/
def sreqW : SearchReq :=
  { text := none, embedding := some (List.replicate 384 0), provider := some pLocal,
    limit := none }

/-- A two-row store for the search scenarios. -/
def sdbW : DB := ⟨[srowA, rowW], 11, 300⟩

/-- A concrete stand-in for the store's distance operator, used only to
instantiate universally quantified theorems in witnesses. -/
def distW : Vec → Vec → ℚ := fun _ _ => 0

/-- A valid bulk element (created path, local provider). -/
def itGood : BulkItem :=
  { id := none, text := some "a", channelId := some 9, userId := some 4,
    writerChannelId := none, embeddingLocal := some (List.replicate 384 0),
    metadata := none }

/-- A bulk element missing its userId. -/
def itBad : BulkItem := { itGood with userId := none }

/-- The three-element bulk request of testable property P5: the middle item
omits the ownerId. -/
def breqW : BulkReq := ⟨some pLocal, [itGood, itBad, itGood]⟩

/-- An empty store for the bulk scenario. -/
def dbB : DB := ⟨[], 1, 50⟩

/-! ### Helper lemmas -/

theorem attemptRes_ok_length {o : ApiOutcome} {v : Vec} (h : attemptRes o = .ok v) :
    v.length = 1536 := by
  cases o with
  | ok w =>
    by_cases hl : w.length = 1536
    · simp [attemptRes, hl] at h
      rw [← h]; exact hl
    · simp [attemptRes, hl] at h
  | fail m => simp [attemptRes] at h

theorem genLoop_ok_length {tr : Nat → ApiOutcome} {retries : Nat} :
    ∀ {fuel i : Nat} {ds : List Nat} {last : Option String} {v : Vec},
      (genLoop tr retries fuel i ds last).result = .ok v → v.length = 1536 := by
  intro fuel
  induction fuel with
  | zero => intro i ds last v h; simp [genLoop] at h
  | succ n ih =>
    intro i ds last v h
    simp only [genLoop] at h
    cases h0 : attemptRes (tr i) with
    | ok w =>
      rw [h0] at h
      exact Except.ok.inj h ▸ attemptRes_ok_length h0
    | error m =>
      rw [h0] at h
      simp at h
      split at h
      · exact ih h
      · simp at h

theorem generateOpenAIEmbedding_ok_length {keySet : Bool} {t : String}
    {tr : Nat → ApiOutcome} {retries : Nat} {v : Vec}
    (h : (generateOpenAIEmbedding keySet t tr retries).result = .ok v) : v.length = 1536 := by
  unfold generateOpenAIEmbedding at h
  split at h
  · cases h
  · split at h
    · cases h
    · exact genLoop_ok_length h

theorem generateEmbedding_ok_length {env : OpenAIEnv} {t : String} {v : Vec}
    (h : generateEmbedding env t = .ok v) : v.length = 1536 := by
  unfold generateEmbedding at h
  split at h
  · cases h
  · split at h
    · cases h
    · exact generateOpenAIEmbedding_ok_length h

theorem generateEmbedding_ok_text {env : OpenAIEnv} {t : String} {v : Vec}
    (h : generateEmbedding env t = .ok v) : trimEmpty t = false := by
  unfold generateEmbedding at h
  split at h
  · cases h
  · rename_i ht; simpa using ht

theorem trimEmpty_false_ne {t : String} (h : trimEmpty t = false) : t ≠ strEmpty := by
  intro he
  subst he
  cases h

theorem genLoop_s1 (tr : Nat → ApiOutcome) :
    genLoop tr 2 3 0 [] none =
      match attemptRes (tr 0) with
      | .ok v => ⟨.ok v, 1, []⟩
      | .error m =>
        if isRetryableMsg m = true ∧ 0 < 2 then genLoop tr 2 2 1 [1000] (some m)
        else ⟨.error m, 1, []⟩ := rfl

theorem genLoop_s2 (tr : Nat → ApiOutcome) (last : Option String) :
    genLoop tr 2 2 1 [1000] last =
      match attemptRes (tr 1) with
      | .ok v => ⟨.ok v, 2, [1000]⟩
      | .error m =>
        if isRetryableMsg m = true ∧ 1 < 2 then genLoop tr 2 1 2 [1000, 2000] (some m)
        else ⟨.error m, 2, [1000]⟩ := rfl

theorem genLoop_s3 (tr : Nat → ApiOutcome) (last : Option String) :
    genLoop tr 2 1 2 [1000, 2000] last =
      match attemptRes (tr 2) with
      | .ok v => ⟨.ok v, 3, [1000, 2000]⟩
      | .error m =>
        if isRetryableMsg m = true ∧ 2 < 2 then genLoop tr 2 0 3 [1000, 2000, 4000] (some m)
        else ⟨.error m, 3, [1000, 2000]⟩ := rfl

/-! ### Claim C5 -/

/-- Claim C5 (corrected): the claim as frozen says a returned vector whose
length is not 1536 is never retried. The code classifies retryability by
searching the caught error's message for the substrings rate limit, timeout,
503 and 429, and the dimension-mismatch error message embeds the offending
length in decimal; with a first response of length 503 the message contains
503, so the call IS retried (one backoff delay is slept and a second API call
is made) and here even succeeds. -/
theorem claim_C5_counterexample :
    generateOpenAIEmbedding true "hi" trace503 2
      = ⟨.ok (List.replicate 1536 0), 2, [1000]⟩
      ∧ attemptRes (trace503 0) = .error (dimMsg 503) := by
  constructor
  · set_option maxRecDepth 40000 in rfl
  · set_option maxRecDepth 40000 in rfl

/-- Claim C5 (amended): generateOpenAIEmbedding with the default bound of 2
retries. If the credential is absent it fails at once with no API call and no
delay; so does generateEmbedding when unconfigured. A first failure whose
message matches none of the code's retryability substrings (rate limit,
timeout, 503, 429) is surfaced after exactly one call with no delay. In every
run at most 3 calls are made and the backoff delays slept are a prefix of
1000ms then 2000ms (1 time unit, then doubled). When all allowed attempts
fail the last error is surfaced after 3 calls and both delays. A successful
result always has exactly 1536 entries. -/
theorem claim_C5 :
    (∀ t tr, trimEmpty t = false →
      generateOpenAIEmbedding false t tr 2 = ⟨.error msgNoKeyVar, 0, []⟩)
    ∧ (∀ env t, env.apiKeySet = false → trimEmpty t = false →
      generateEmbedding env t = .error msgNoKeyCfg)
    ∧ (∀ t tr m, trimEmpty t = false →
      attemptRes (tr 0) = .error m → isRetryableMsg m = false →
      generateOpenAIEmbedding true t tr 2 = ⟨.error m, 1, []⟩)
    ∧ (∀ t tr,
      (generateOpenAIEmbedding true t tr 2).delays ∈ ([[], [1000], [1000, 2000]] : List (List Nat))
      ∧ (generateOpenAIEmbedding true t tr 2).calls ≤ 3)
    ∧ (∀ t tr m0 m1 m2, trimEmpty t = false →
      attemptRes (tr 0) = .error m0 → isRetryableMsg m0 = true →
      attemptRes (tr 1) = .error m1 → isRetryableMsg m1 = true →
      attemptRes (tr 2) = .error m2 →
      generateOpenAIEmbedding true t tr 2 = ⟨.error m2, 3, [1000, 2000]⟩)
    ∧ (∀ keySet t tr v,
      (generateOpenAIEmbedding keySet t tr 2).result = .ok v → v.length = 1536) := by
  refine ⟨?_, ?_, ?_, ?_, ?_, ?_⟩
  · intro t tr ht
    simp [generateOpenAIEmbedding, ht]
  · intro env t henv ht
    simp [generateEmbedding, ht, henv]
  · intro t tr m ht h0 hr
    have hrun : generateOpenAIEmbedding true t tr 2 = genLoop tr 2 3 0 [] none := by
      simp [generateOpenAIEmbedding, ht]
    rw [hrun, genLoop_s1 tr, h0]
    simp [hr]
  · intro t tr
    by_cases ht : trimEmpty t
    · simp [generateOpenAIEmbedding, ht]
    · have hrun : generateOpenAIEmbedding true t tr 2 = genLoop tr 2 3 0 [] none := by
        simp [generateOpenAIEmbedding, ht]
      rw [hrun, genLoop_s1 tr]
      cases h0 : attemptRes (tr 0) with
      | ok w => exact ⟨by simp, by simp⟩
      | error m0 =>
        by_cases hr0 : isRetryableMsg m0
        · simp only [hr0, Nat.zero_lt_two, and_self, if_true, genLoop_s2 tr]
          cases h1 : attemptRes (tr 1) with
          | ok w => exact ⟨by simp, by simp⟩
          | error m1 =>
            by_cases hr1 : isRetryableMsg m1
            · simp only [hr1, Nat.one_lt_two, and_self, if_true, genLoop_s3 tr]
              cases h2 : attemptRes (tr 2) with
              | ok w => exact ⟨by simp, by simp⟩
              | error m2 => simp
            · simp [hr1]
        · simp [hr0]
  · intro t tr m0 m1 m2 ht h0 hr0 h1 hr1 h2
    have hrun : generateOpenAIEmbedding true t tr 2 = genLoop tr 2 3 0 [] none := by
      simp [generateOpenAIEmbedding, ht]
    rw [hrun, genLoop_s1 tr, h0]
    simp only [hr0, Nat.zero_lt_two, and_self, if_true, genLoop_s2 tr]
    rw [h1]
    simp only [hr1, Nat.one_lt_two, and_self, if_true, genLoop_s3 tr]
    rw [h2]
    simp
  · intro keySet t tr v h
    exact generateOpenAIEmbedding_ok_length h

/-- Claim C5 witness: a non-retryable first failure in a configured
environment surfaces after exactly one API call with no backoff delay. -/
theorem claim_C5_witness :
    generateOpenAIEmbedding true "hi" traceBoom 2 = ⟨.error msgBoom, 1, []⟩ :=
  claim_C5.2.2.1 "hi" traceBoom msgBoom (by rfl) (by rfl) (by rfl)

/-! ### Upsert helper lemmas -/

theorem find?_of_unique {p : Row → Bool} {r : Row} :
    ∀ {l : List Row}, r ∈ l → p r = true → (∀ x ∈ l, p x = true → x = r) →
      l.find? p = some r := by
  intro l
  induction l with
  | nil => intro hmem _ _; cases hmem
  | cons x xs ih =>
    intro hmem hr huniq
    by_cases hx : p x
    · have hxr : x = r := huniq x (List.mem_cons_self x xs) hx
      rw [List.find?_cons_of_pos _ hx, hxr]
    · have hmem2 : r ∈ xs := by
        cases List.mem_cons.mp hmem with
        | inl h => exact absurd (h ▸ hr) (by simpa [h] using hx)
        | inr h => exact h
      rw [List.find?_cons_of_neg _ hx]
      exact ih hmem2 hr (fun y hy hpy => huniq y (List.mem_cons_of_mem _ hy) hpy)

/-- Full characterization of the upsert handler's run on an update request
with provider openai hitting an existing (id, channelId) key. -/
theorem upsert_openai_update (env : OpenAIEnv) (req : UpsertReq) (db : DB) (r : Row)
    (i ch u : Int) (t : String) (v : Vec)
    (hid : req.id = some i) (hi : i ≠ 0)
    (hch : req.channelId = some ch) (hc : ch ≠ 0)
    (hu : req.userId = some u) (hu0 : u ≠ 0)
    (ht : req.text = some t)
    (hp : req.provider = some pOpenai)
    (hgen : generateEmbedding env t = .ok v)
    (hfind : db.rows.find? (keyMatch i ch) = some r) :
    upsertChunk env req db =
      (.ok 200 (applySet r (mkUpsertData req (some v) none)) actUpserted,
       { db with rows := updateRows i (mkUpsertData req (some v) none) db.rows }) := by
  have ht0 : t ≠ strEmpty := trimEmpty_false_ne (generateEmbedding_ok_text hgen)
  have hst : strTruthy req.text = true := by simp [strTruthy, ht, ht0]
  have hct : numTruthy req.channelId = true := by simp [numTruthy, hch, hc]
  have hut : numTruthy req.userId = true := by simp [numTruthy, hu, hu0]
  have hdch : (mkUpsertData req (some v) none).channelId = ch := by
    simp [mkUpsertData, hch]
  unfold upsertChunk
  rw [hst, hct, hut]
  simp only [Bool.not_true, Bool.or_self, Bool.false_eq_true, if_false, hp, Option.getD_some,
    true_or, if_true]
  unfold upsertStage2
  simp only [hp, Option.getD_some, true_or, if_true]
  rw [ht]
  simp only [Option.getD_some]
  rw [hgen]
  unfold upsertStage3
  simp only [hp, Option.getD_some]
  rw [if_neg (by decide : ¬(pOpenai = pLocal ∨ pOpenai = pBoth))]
  unfold finishUpsert
  have hidt : numTruthy req.id = true := by simp [numTruthy, hid, hi]
  rw [hidt]
  simp only [if_true, hid, Option.getD_some, hdch, hfind]

/-! ### Claim C1 -/

/-- Claim C1 (confirmed): a chunk stored with only the local (provider-B)
embedding populated, upserted again at the same (id, channelId) with provider
openai (A), keeps its local vector and its createdAt unchanged while its
openai column becomes the newly generated 1536-dim vector; the update touches
no other row's key slot. -/
theorem claim_C1 (env : OpenAIEnv) (req : UpsertReq) (db : DB) (r : Row)
    (i ch u : Int) (t : String) (w v : Vec)
    (hid : req.id = some i) (hi : i ≠ 0)
    (hch : req.channelId = some ch) (hc : ch ≠ 0)
    (hu : req.userId = some u) (hu0 : u ≠ 0)
    (ht : req.text = some t)
    (hp : req.provider = some pOpenai)
    (hgen : generateEmbedding env t = .ok v)
    (hmem : r ∈ db.rows) (hkid : r.id = i) (hkch : r.channelId = ch)
    (_honlyA : r.embeddingOpenai = none) (honlyB : r.embeddingLocal = some w)
    (huniq : ∀ x ∈ db.rows, x.id = i → x.channelId = ch → x = r) :
    ∃ r2 db2, upsertChunk env req db = (.ok 200 r2 actUpserted, db2)
      ∧ r2 ∈ db2.rows
      ∧ r2.id = i ∧ r2.channelId = ch
      ∧ r2.embeddingLocal = some w
      ∧ r2.createdAt = r.createdAt
      ∧ r2.embeddingOpenai = some v ∧ v.length = 1536
      ∧ (∀ x ∈ db2.rows, x.id = i → x.channelId = ch → x = r2) := by
  have hfind : db.rows.find? (keyMatch i ch) = some r :=
    find?_of_unique hmem (by simp [keyMatch, hkid, hkch])
      (fun x hx hpx => by
        simp [keyMatch] at hpx
        exact huniq x hx hpx.1 hpx.2)
  have hrun := upsert_openai_update env req db r i ch u t v hid hi hch hc hu hu0 ht hp hgen hfind
  have hdch : (mkUpsertData req (some v) none).channelId = ch := by
    simp [mkUpsertData, hch]
  refine ⟨applySet r (mkUpsertData req (some v) none),
    { db with rows := updateRows i (mkUpsertData req (some v) none) db.rows },
    hrun, ?_, ?_, ?_, ?_, ?_, ?_, generateEmbedding_ok_length hgen, ?_⟩
  · have hmm := List.mem_map_of_mem
      (fun x => if keyMatch i (mkUpsertData req (some v) none).channelId x
        then applySet x (mkUpsertData req (some v) none) else x) hmem
    simpa [updateRows, keyMatch, hkid, hkch, hdch] using hmm
  · simp [applySet, hkid]
  · simp [applySet, hdch]
  · simp [applySet, mkUpsertData, honlyB]
  · simp [applySet]
  · simp [applySet, mkUpsertData]
  · intro x hx h1 h2
    obtain ⟨y, hy, hgy⟩ := List.mem_map.mp hx
    by_cases hk : keyMatch i (mkUpsertData req (some v) none).channelId y
    · rw [if_pos hk] at hgy
      have hyk := hk
      simp [keyMatch, hdch] at hyk
      have : y = r := huniq y hy hyk.1 hyk.2
      rw [← hgy, this]
    · rw [if_neg hk] at hgy
      rw [← hgy] at h1 h2
      exact absurd (by simp [keyMatch, hdch, h1, h2]) hk

set_option maxRecDepth 40000 in
/-- Claim C1 witness: the scenario run on a concrete one-row store. -/
theorem claim_C1_witness :
    ∃ r2 db2, upsertChunk envW reqW dbW = (.ok 200 r2 actUpserted, db2)
      ∧ r2 ∈ db2.rows
      ∧ r2.id = 1 ∧ r2.channelId = 7
      ∧ r2.embeddingLocal = some (List.replicate 384 (1/10))
      ∧ r2.createdAt = rowW.createdAt
      ∧ r2.embeddingOpenai = some (List.replicate 1536 (1/2))
      ∧ (List.replicate 1536 ((1:ℚ)/2)).length = 1536
      ∧ (∀ x ∈ db2.rows, x.id = 1 → x.channelId = 7 → x = r2) :=
  claim_C1 envW reqW dbW rowW 1 7 3 "hello" (List.replicate 384 (1/10))
    (List.replicate 1536 (1/2))
    rfl (by decide) rfl (by decide) rfl (by decide) rfl rfl (by rfl)
    (List.mem_cons_self _ _) rfl rfl rfl rfl
    (fun x hx _ _ => by simpa [dbW] using hx)

/-! ### Success-shape lemmas for the write handlers -/

theorem numTruthy_getD {o : Option Int} (h : numTruthy o = true) : o.getD 0 ≠ 0 := by
  cases o with
  | none => cases h
  | some n => simpa [numTruthy] using h

theorem finishUpsert_ok {req : UpsertReq} {d : ChunkData} {db : DB} {st : Nat} {r : Row}
    {a : String} {db2 : DB} (h : finishUpsert req d db = (.ok st r a, db2)) :
    r.channelId = d.channelId ∧ r.userId = d.userId ∧ r.content = d.content
    ∧ r.embeddingProvider = some d.embeddingProvider
    ∧ (numTruthy req.id = true → a = actUpserted ∧ st = 200)
    ∧ (numTruthy req.id = false → a = actCreated ∧ st = 201) := by
  unfold finishUpsert at h
  split at h
  · rename_i hidt
    split at h
    · simp only [Prod.mk.injEq, UpsertResp.ok.injEq] at h
      obtain ⟨⟨hst, hr, ha⟩, _⟩ := h
      subst hst; subst hr; subst ha
      exact ⟨by simp [applySet], by simp [applySet], by simp [applySet], by simp [applySet],
        fun _ => ⟨rfl, rfl⟩, fun hf => by simp [hidt] at hf⟩
    · simp only [Prod.mk.injEq, UpsertResp.ok.injEq] at h
      obtain ⟨⟨hst, hr, ha⟩, _⟩ := h
      subst hst; subst hr; subst ha
      exact ⟨by simp [rowOfData], by simp [rowOfData], by simp [rowOfData], by simp [rowOfData],
        fun _ => ⟨rfl, rfl⟩, fun hf => by simp [hidt] at hf⟩
  · rename_i hidt
    simp only [Prod.mk.injEq, UpsertResp.ok.injEq] at h
    obtain ⟨⟨hst, hr, ha⟩, _⟩ := h
    subst hst; subst hr; subst ha
    exact ⟨by simp [rowOfData], by simp [rowOfData], by simp [rowOfData], by simp [rowOfData],
      fun htr => absurd htr hidt, fun _ => ⟨rfl, rfl⟩⟩

theorem upsertStage3_ok {req : UpsertReq} {eo : Option Vec} {db : DB} {st : Nat} {r : Row}
    {a : String} {db2 : DB} (h : upsertStage3 req eo db = (.ok st r a, db2)) :
    ∃ el, finishUpsert req (mkUpsertData req eo el) db = (.ok st r a, db2) := by
  unfold upsertStage3 at h
  split at h
  · split at h
    · split at h
      · exact ⟨_, h⟩
      · simp at h
    · simp at h
  · exact ⟨none, h⟩

theorem upsertStage2_ok {env : OpenAIEnv} {req : UpsertReq} {db : DB} {st : Nat} {r : Row}
    {a : String} {db2 : DB} (h : upsertStage2 env req db = (.ok st r a, db2)) :
    ∃ eo, upsertStage3 req eo db = (.ok st r a, db2) := by
  unfold upsertStage2 at h
  split at h
  · split at h
    · simp at h
    · exact ⟨_, h⟩
  · exact ⟨none, h⟩

theorem upsert_ok_shape {env : OpenAIEnv} {req : UpsertReq} {db : DB} {st : Nat} {r : Row}
    {a : String} {db2 : DB} (h : upsertChunk env req db = (.ok st r a, db2)) :
    strTruthy req.text = true ∧ numTruthy req.channelId = true ∧ numTruthy req.userId = true
    ∧ r.channelId = req.channelId.getD 0 ∧ r.userId = req.userId.getD 0
    ∧ r.content = req.text.getD strEmpty
    ∧ r.embeddingProvider = some (req.provider.getD pOpenai)
    ∧ (numTruthy req.id = true → a = actUpserted ∧ st = 200)
    ∧ (numTruthy req.id = false → a = actCreated ∧ st = 201) := by
  unfold upsertChunk at h
  split at h
  · simp at h
  · rename_i hcond
    simp at hcond
    obtain ⟨⟨h1, h2⟩, h3⟩ := hcond
    split at h
    · obtain ⟨eo, h4⟩ := upsertStage2_ok h
      obtain ⟨el, h5⟩ := upsertStage3_ok h4
      have hf := finishUpsert_ok h5
      simp only [mkUpsertData] at hf
      exact ⟨h1, h2, h3, hf.1, hf.2.1, hf.2.2.1, hf.2.2.2.1, hf.2.2.2.2.1, hf.2.2.2.2.2⟩
    · simp at h

theorem insert_ok_shape {req : InsertReq} {db : DB} {st : Nat} {r : Row} {db2 : DB}
    (h : insertChunk req db = (.ok st r, db2)) :
    st = 201 ∧ numTruthy req.channelId = true ∧ numTruthy req.userId = true
    ∧ strTruthy req.content = true
    ∧ r.channelId = req.channelId.getD 0 ∧ r.userId = req.userId.getD 0
    ∧ r.embeddingOpenai = req.embeddingOpenai ∧ r.embeddingLocal = req.embeddingLocal
    ∧ ¬(req.embeddingOpenai = none ∧ req.embeddingLocal = none)
    ∧ db2.rows = db.rows ++ [r] := by
  unfold insertChunk at h
  split at h
  · simp at h
  · rename_i hcond
    simp at hcond
    obtain ⟨⟨h1, h2⟩, h3⟩ := hcond
    split at h
    · simp at h
    · split at h
      · simp at h
      · split at h
        · simp at h
        · rename_i hnb
          simp only [Prod.mk.injEq, ChunkResp.ok.injEq] at h
          obtain ⟨⟨hst, hr⟩, hdb⟩ := h
          subst hst; subst hr
          refine ⟨rfl, h1, h2, h3, rfl, rfl, rfl, rfl, hnb, ?_⟩
          rw [← hdb]

/-! ### Claim C2 -/

set_option maxRecDepth 40000 in
/-- Claim C2 (corrected): the claim as frozen says a successful upsert with an
id reports the action tag updated. On the concrete scenario the handler
returns the tag upserted (with the default 200 status), which is not the
claimed updated tag; so the action tag is not drawn from the claimed set
(created, updated). -/
theorem claim_C2_counterexample :
    (upsertChunk envW reqW dbW).1 = UpsertResp.ok 200 rowW2 actUpserted
    ∧ actUpserted ≠ "updated" := ⟨by rfl, by decide⟩

/-- Claim C2 (amended): every successful single-item upsert reports an action
tag in the set (created, upserted); it is upserted with status 200 exactly
when the request carried a truthy id, and created with status 201 otherwise. -/
theorem claim_C2 (env : OpenAIEnv) (req : UpsertReq) (db : DB) (st : Nat) (r : Row)
    (a : String) (db2 : DB) (h : upsertChunk env req db = (.ok st r a, db2)) :
    (a = actCreated ∨ a = actUpserted)
    ∧ (numTruthy req.id = true → a = actUpserted ∧ st = 200)
    ∧ (numTruthy req.id = false → a = actCreated ∧ st = 201) := by
  obtain ⟨_, _, _, _, _, _, _, h8, h9⟩ := upsert_ok_shape h
  refine ⟨?_, h8, h9⟩
  cases hb : numTruthy req.id with
  | true => exact Or.inr (h8 hb).1
  | false => exact Or.inl (h9 hb).1

set_option maxRecDepth 40000 in
/-- Claim C2 witness: the amended statement instantiated on the concrete
update scenario. -/
theorem claim_C2_witness :
    (actUpserted = actCreated ∨ actUpserted = actUpserted)
    ∧ (numTruthy reqW.id = true → actUpserted = actUpserted ∧ 200 = 200)
    ∧ (numTruthy reqW.id = false → actUpserted = actCreated ∧ 200 = 201) :=
  claim_C2 envW reqW dbW 200 rowW2 actUpserted dbW2 (by rfl)

/-! ### Claim C10 -/

/-- Claim C10 (confirmed): after every successful single-item upsert the
stored providerTag equals the requested provider selection (with the openai
default); in particular an openai update over a row whose local column is
populated leaves the tag openai while both embedding columns are non-null. -/
theorem claim_C10 :
    (∀ env req db st r a db2, upsertChunk env req db = (UpsertResp.ok st r a, db2) →
      r.embeddingProvider = some (req.provider.getD pOpenai))
    ∧ (∀ (env : OpenAIEnv) (req : UpsertReq) (db : DB) (r : Row) (i ch u : Int)
        (t : String) (w v : Vec),
        req.id = some i → i ≠ 0 → req.channelId = some ch → ch ≠ 0 →
        req.userId = some u → u ≠ 0 → req.text = some t →
        req.provider = some pOpenai → generateEmbedding env t = .ok v →
        db.rows.find? (keyMatch i ch) = some r → r.embeddingLocal = some w →
        (upsertChunk env req db).1
            = .ok 200 (applySet r (mkUpsertData req (some v) none)) actUpserted
          ∧ (applySet r (mkUpsertData req (some v) none)).embeddingProvider = some pOpenai
          ∧ (applySet r (mkUpsertData req (some v) none)).embeddingOpenai.isSome = true
          ∧ (applySet r (mkUpsertData req (some v) none)).embeddingLocal.isSome = true) := by
  constructor
  · intro env req db st r a db2 h
    exact (upsert_ok_shape h).2.2.2.2.2.2.1
  · intro env req db r i ch u t w v hid hi hch hc hu hu0 ht hp hgen hfind hloc
    have hrun := upsert_openai_update env req db r i ch u t v hid hi hch hc hu hu0 ht hp hgen hfind
    refine ⟨by rw [hrun], ?_, ?_, ?_⟩
    · simp [applySet, mkUpsertData, hp]
    · simp [applySet, mkUpsertData]
    · simp [applySet, mkUpsertData, hloc]

set_option maxRecDepth 40000 in
/-- Claim C10 witness: both parts instantiated on the concrete scenario. -/
theorem claim_C10_witness :
    rowW2.embeddingProvider = some (reqW.provider.getD pOpenai)
    ∧ ((upsertChunk envW reqW dbW).1
        = .ok 200 (applySet rowW (mkUpsertData reqW (some (List.replicate 1536 (1/2))) none))
            actUpserted
      ∧ (applySet rowW (mkUpsertData reqW (some (List.replicate 1536 (1/2))) none)).embeddingProvider
          = some pOpenai
      ∧ (applySet rowW (mkUpsertData reqW (some (List.replicate 1536 (1/2))) none)).embeddingOpenai.isSome
          = true
      ∧ (applySet rowW (mkUpsertData reqW (some (List.replicate 1536 (1/2))) none)).embeddingLocal.isSome
          = true) :=
  ⟨claim_C10.1 envW reqW dbW 200 rowW2 actUpserted dbW2 (by rfl),
   claim_C10.2 envW reqW dbW rowW 1 7 3 "hello" (List.replicate 384 (1/10))
     (List.replicate 1536 (1/2)) rfl (by decide) rfl (by decide) rfl (by decide)
     rfl rfl (by rfl) (by rfl) rfl⟩

/-! ### Claim C8 -/

/-- Claim C8 (confirmed): the write endpoints treat falsy required fields as
absent: a channelId of 0, a userId of 0 or empty content/text is rejected
with the 400 required-fields error and the store is untouched, and every
successfully written chunk therefore has nonzero channelId and userId. -/
theorem claim_C8 :
    (∀ req db, (req.channelId = some 0 ∨ req.userId = some 0 ∨ req.content = some strEmpty) →
      insertChunk req db = (.err 400 msgInsertRequired, db))
    ∧ (∀ env req db,
        (req.channelId = some 0 ∨ req.userId = some 0 ∨ req.text = some strEmpty) →
      upsertChunk env req db = (.err 400 msgUpsertRequired, db))
    ∧ (∀ req db st r db2, insertChunk req db = (ChunkResp.ok st r, db2) →
      r.channelId ≠ 0 ∧ r.userId ≠ 0)
    ∧ (∀ env req db st r a db2, upsertChunk env req db = (UpsertResp.ok st r a, db2) →
      r.channelId ≠ 0 ∧ r.userId ≠ 0) := by
  refine ⟨?_, ?_, ?_, ?_⟩
  · intro req db hcase
    rcases hcase with h0 | h0 | h0 <;> simp [insertChunk, numTruthy, strTruthy, h0]
  · intro env req db hcase
    rcases hcase with h0 | h0 | h0 <;> simp [upsertChunk, numTruthy, strTruthy, h0]
  · intro req db st r db2 h
    obtain ⟨_, h2, h3, _, hc, hu, _⟩ := insert_ok_shape h
    exact ⟨hc ▸ numTruthy_getD h2, hu ▸ numTruthy_getD h3⟩
  · intro env req db st r a db2 h
    obtain ⟨_, h2, h3, hc, hu, _⟩ := upsert_ok_shape h
    exact ⟨hc ▸ numTruthy_getD h2, hu ▸ numTruthy_getD h3⟩

/-- Claim C8 witness: a direct insert and an upsert whose channelId is the
well-formed integer 0 are both rejected with the 400 required-fields error and
leave the store unchanged. -/
theorem claim_C8_witness :
    insertChunk insReqZero dbW = (.err 400 msgInsertRequired, dbW)
    ∧ upsertChunk envW upReqZero dbW = (.err 400 msgUpsertRequired, dbW) :=
  ⟨claim_C8.1 insReqZero dbW (Or.inl rfl), claim_C8.2.1 envW upReqZero dbW (Or.inl rfl)⟩

/-! ### Claim C6 -/

/-- Claim C6 (confirmed): a direct insert in which both embedding fields are
absent is rejected with a 400 and the store is unchanged; consequently every
chunk produced by a successful direct insert has at least one non-null
embedding column, and it is appended to the table. -/
theorem claim_C6 (req : InsertReq) (db : DB) :
    ((req.embeddingOpenai = none ∧ req.embeddingLocal = none) →
      (insertChunk req db).2 = db ∧ ∃ m, (insertChunk req db).1 = .err 400 m)
    ∧ (∀ st r db2, insertChunk req db = (.ok st r, db2) →
      (r.embeddingOpenai.isSome = true ∨ r.embeddingLocal.isSome = true)
      ∧ db2.rows = db.rows ++ [r]) := by
  constructor
  · rintro ⟨heo, hel⟩
    unfold insertChunk
    split
    · exact ⟨rfl, _, rfl⟩
    · split
      · exact ⟨rfl, _, rfl⟩
      · split
        · exact ⟨rfl, _, rfl⟩
        · split
          · exact ⟨rfl, _, rfl⟩
          · rename_i hnb
            exact absurd ⟨heo, hel⟩ hnb
  · intro st r db2 h
    obtain ⟨_, _, _, _, _, _, heo, hel, hnb, hrows⟩ := insert_ok_shape h
    refine ⟨?_, hrows⟩
    cases ho : req.embeddingOpenai with
    | some l => exact Or.inl (by simp [heo, ho])
    | none =>
      cases hl : req.embeddingLocal with
      | some l => exact Or.inr (by simp [hel, hl])
      | none => exact absurd ⟨ho, hl⟩ hnb

/-- Claim C6 witness: the both-embeddings-absent rejection on a concrete
request and store. -/
theorem claim_C6_witness :
    (insertChunk insReqNoEmb dbW).2 = dbW
    ∧ ∃ m, (insertChunk insReqNoEmb dbW).1 = .err 400 m :=
  (claim_C6 insReqNoEmb dbW).1 ⟨rfl, rfl⟩

/-! ### Search claims -/

theorem rankRows_mem {dist : Vec → Vec → ℚ} {p : String} {q : Vec} {rows : List Row}
    {lim : Nat} {r : Row} (h : r ∈ rankRows dist p q rows lim) :
    (selCol p r).isSome = true := by
  unfold rankRows at h
  have h1 := List.mem_of_mem_take h
  have h2 := ((List.perm_insertionSort _ _).mem_iff).mp h1
  exact (List.mem_filter.mp h2).2

/-- Claim C4 (confirmed): a successful search under provider openai returns
only chunks whose openai column is non-null, and symmetrically for local. -/
theorem claim_C4 (dist : Vec → Vec → ℚ) (env : OpenAIEnv) (req : SearchReq) (db : DB)
    (rs : List Row) (p : String) (h : search dist env req db = SearchResp.ok rs p) :
    p = req.provider.getD pOpenai
    ∧ ∀ r ∈ rs, (p = pOpenai → r.embeddingOpenai.isSome = true)
      ∧ (p = pLocal → r.embeddingLocal.isSome = true) := by
  unfold search at h
  split at h
  · split at h
    · simp at h
    · simp only [SearchResp.ok.injEq] at h
      obtain ⟨hrs, hp⟩ := h
      subst hp
      refine ⟨rfl, ?_⟩
      intro r hr
      rw [← hrs] at hr
      have hsel := rankRows_mem hr
      constructor
      · intro hpo
        rw [hpo] at hsel
        simpa [selCol] using hsel
      · intro hpl
        rw [hpl] at hsel
        rw [selCol, if_neg (by decide : ¬(pLocal = pOpenai))] at hsel
        exact hsel
  · simp at h

set_option maxRecDepth 40000 in
/-- Claim C4 witness: a local search on a store holding one openai-only and
one local-only chunk returns only the local-populated chunk. -/
theorem claim_C4_witness :
    pLocal = sreqW.provider.getD pOpenai
    ∧ ∀ r ∈ [rowW], (pLocal = pOpenai → r.embeddingOpenai.isSome = true)
      ∧ (pLocal = pLocal → r.embeddingLocal.isSome = true) :=
  claim_C4 distW envW sreqW sdbW [rowW] pLocal (by rfl)

/-- Claim C7 (confirmed): a successful search returns the candidate rows
ordered by the store's distance between the selected column and the resolved
query vector, ascending, with at most limit rows where the limit defaults to
5 when the request omits it. -/
theorem claim_C7 (dist : Vec → Vec → ℚ) (env : OpenAIEnv) (req : SearchReq) (db : DB)
    (rs : List Row) (p : String) (h : search dist env req db = SearchResp.ok rs p) :
    ∃ q, resolveQuery env req p = .ok q
      ∧ List.Pairwise (fun a b => dist (colVal p a) q ≤ dist (colVal p b) q) rs
      ∧ rs.length ≤ req.limit.getD 5
      ∧ (req.limit = none → rs.length ≤ 5) := by
  unfold search at h
  split at h
  · split at h
    · simp at h
    · rename_i q hq
      simp only [SearchResp.ok.injEq] at h
      obtain ⟨hrs, hp⟩ := h
      subst hp
      refine ⟨q, hq, ?_, ?_, ?_⟩
      · rw [← hrs]
        unfold rankRows
        refine List.Pairwise.sublist (List.take_sublist _ _) ?_
        haveI ht2 : IsTrans Row
            (fun a b => dist (colVal (req.provider.getD pOpenai) a) q
              ≤ dist (colVal (req.provider.getD pOpenai) b) q) :=
          ⟨fun _ _ _ hab hbc => le_trans hab hbc⟩
        haveI ht1 : IsTotal Row
            (fun a b => dist (colVal (req.provider.getD pOpenai) a) q
              ≤ dist (colVal (req.provider.getD pOpenai) b) q) :=
          ⟨fun _ _ => le_total _ _⟩
        exact List.sorted_insertionSort _ _
      · rw [← hrs]
        exact List.length_take_le _ _
      · intro hnone
        rw [← hrs]
        unfold rankRows
        rw [hnone]
        exact List.length_take_le _ _
  · simp at h

set_option maxRecDepth 40000 in
/-- Claim C7 witness: the ordering and limit facts instantiated on the
concrete local search. -/
theorem claim_C7_witness :
    ∃ q, resolveQuery envW sreqW pLocal = .ok q
      ∧ List.Pairwise (fun a b => distW (colVal pLocal a) q ≤ distW (colVal pLocal b) q) [rowW]
      ∧ [rowW].length ≤ sreqW.limit.getD 5
      ∧ (sreqW.limit = none → [rowW].length ≤ 5) :=
  claim_C7 distW envW sreqW sdbW [rowW] pLocal (by rfl)

/-- Claim C9 (confirmed): omitting the provider field behaves exactly as
supplying openai, for both the search and the single-item upsert handlers. -/
theorem claim_C9 :
    (∀ (dist : Vec → Vec → ℚ) (env : OpenAIEnv) (req : SearchReq) (db : DB),
      search dist env { req with provider := none } db
        = search dist env { req with provider := some pOpenai } db)
    ∧ (∀ (env : OpenAIEnv) (req : UpsertReq) (db : DB),
      upsertChunk env { req with provider := none } db
        = upsertChunk env { req with provider := some pOpenai } db) :=
  ⟨fun _ _ _ _ => rfl, fun _ _ _ => rfl⟩

/-! ### Claim C3 (bulk orchestrator) -/

theorem finishUpsert_no_err {req : UpsertReq} {d : ChunkData} {db : DB} {s : Nat}
    {m : String} {db2 : DB} (h : finishUpsert req d db = (.err s m, db2)) : False := by
  unfold finishUpsert at h
  split at h
  · split at h <;> simp at h
  · simp at h

theorem upsertStage3_err {req : UpsertReq} {eo : Option Vec} {db : DB} {s : Nat}
    {m : String} {db2 : DB} (h : upsertStage3 req eo db = (.err s m, db2)) : db2 = db := by
  unfold upsertStage3 at h
  split at h
  · split at h
    · split at h
      · exact absurd h finishUpsert_no_err
      · simp only [Prod.mk.injEq] at h
        exact h.2.symm
    · simp only [Prod.mk.injEq] at h
      exact h.2.symm
  · exact absurd h finishUpsert_no_err

theorem upsertStage2_err {env : OpenAIEnv} {req : UpsertReq} {db : DB} {s : Nat}
    {m : String} {db2 : DB} (h : upsertStage2 env req db = (.err s m, db2)) : db2 = db := by
  unfold upsertStage2 at h
  split at h
  · split at h
    · simp only [Prod.mk.injEq] at h
      exact h.2.symm
    · exact upsertStage3_err h
  · exact upsertStage3_err h

theorem upsertChunk_err_db {env : OpenAIEnv} {req : UpsertReq} {db : DB} {s : Nat}
    {m : String} {db2 : DB} (h : upsertChunk env req db = (.err s m, db2)) : db2 = db := by
  unfold upsertChunk at h
  split at h
  · simp only [Prod.mk.injEq] at h
    exact h.2.symm
  · split at h
    · exact upsertStage2_err h
    · simp only [Prod.mk.injEq] at h
      exact h.2.symm

theorem processItem_fail_db {env : OpenAIEnv} {p : String} {it : BulkItem} {db : DB}
    (h : ((processItem env p it db).1).success = false) :
    (processItem env p it db).2 = db := by
  unfold processItem at h ⊢
  rcases hu : upsertChunk env (itemReq p it) db with ⟨resp, db2⟩
  rw [hu] at h
  cases resp with
  | ok st c a =>
    have h2 : true = false := h
    cases h2
  | err s m => exact upsertChunk_err_db hu

theorem bulkGo_length (env : OpenAIEnv) (p : String) :
    ∀ (items : List BulkItem) (db : DB), (bulkGo env p items db).1.length = items.length := by
  intro items
  induction items with
  | nil => intro db; rfl
  | cons it rest ih => intro db; simp [bulkGo, ih]

theorem bulkGo_get (env : OpenAIEnv) (p : String) :
    ∀ (items : List BulkItem) (db : DB) (k : Nat) (it : BulkItem),
      items.get? k = some it →
      (bulkGo env p items db).1.get? k
        = some ((processItem env p it ((bulkGo env p (items.take k) db).2)).1) := by
  intro items
  induction items with
  | nil => intro db k it hk; cases hk
  | cons it0 rest ih =>
    intro db k it hk
    cases k with
    | zero =>
      simp only [List.get?] at hk
      cases hk
      rfl
    | succ k =>
      simp only [List.get?] at hk
      simpa [bulkGo, List.take] using ih (processItem env p it0 db).2 k it hk

theorem countP_success_sum :
    ∀ l : List BulkResult, l.countP (·.success) + l.countP (fun r => !r.success) = l.length := by
  intro l
  induction l with
  | nil => rfl
  | cons x xs ih => cases hs : x.success <;> simp [List.countP_cons, hs] <;> omega

/-- Claim C3 (confirmed against the spec-modelled handler): with a valid
provider the bulk endpoint answers 200 with one result slot per input item in
input order, successCount and errorCount counting the succeeded and failed
slots; slot k is exactly the single-item outcome of item k against the store
state left by items before it, and a failing item leaves the store unchanged,
so it neither blocks later items nor rolls back earlier ones. -/
theorem claim_C3 (env : OpenAIEnv) (req : BulkReq) (db : DB)
    (hp : req.provider.getD pOpenai = pOpenai ∨ req.provider.getD pOpenai = pLocal
      ∨ req.provider.getD pOpenai = pBoth) :
    ∃ rs db2, bulkUpsert env req db
        = (.ok 200 rs (rs.countP (·.success)) (rs.countP fun r => !r.success) rs.length, db2)
      ∧ rs.length = req.chunks.length
      ∧ rs.countP (·.success) + rs.countP (fun r => !r.success) = req.chunks.length
      ∧ (∀ k it, req.chunks.get? k = some it →
          rs.get? k = some ((processItem env (req.provider.getD pOpenai) it
            ((bulkGo env (req.provider.getD pOpenai) (req.chunks.take k) db).2)).1))
      ∧ (∀ it dbx, ((processItem env (req.provider.getD pOpenai) it dbx).1).success = false →
          (processItem env (req.provider.getD pOpenai) it dbx).2 = dbx) := by
  refine ⟨(bulkGo env (req.provider.getD pOpenai) req.chunks db).1,
    (bulkGo env (req.provider.getD pOpenai) req.chunks db).2, ?_, bulkGo_length env _ _ _,
    ?_, fun k it hk => bulkGo_get env _ req.chunks db k it hk,
    fun it dbx hfail => processItem_fail_db hfail⟩
  · unfold bulkUpsert
    rw [if_pos hp]
  · rw [countP_success_sum]
    exact bulkGo_length env _ _ _

set_option maxRecDepth 100000 in
/-- Claim C3 witness: testable property P5 instantiated — three local-provider
items whose middle item omits the userId, run against an empty store. -/
theorem claim_C3_witness :
    ∃ rs db2, bulkUpsert envW breqW dbB
        = (.ok 200 rs (rs.countP (·.success)) (rs.countP fun r => !r.success) rs.length, db2)
      ∧ rs.length = breqW.chunks.length
      ∧ rs.countP (·.success) + rs.countP (fun r => !r.success) = breqW.chunks.length
      ∧ (∀ k it, breqW.chunks.get? k = some it →
          rs.get? k = some ((processItem envW (breqW.provider.getD pOpenai) it
            ((bulkGo envW (breqW.provider.getD pOpenai) (breqW.chunks.take k) dbB).2)).1))
      ∧ (∀ it dbx, ((processItem envW (breqW.provider.getD pOpenai) it dbx).1).success = false →
          (processItem envW (breqW.provider.getD pOpenai) it dbx).2 = dbx) :=
  claim_C3 envW breqW dbB (Or.inr (Or.inl rfl))

end CitusVector

